import Mathlib

/-!
Verification of the student CRUD service (`app.py`) against its
natural-language specification.

The service is shallowly embedded: module-level mutable state
(`SAMPLE_STUDENTS`) is threaded explicitly through the store operations and
request handlers; the MongoDB backend of "connected" mode is opaque, so each
connected-mode database call is passed in as an `Except String α` value — an
`Except.error` models the Python exception raised by the driver, and the
`try/except` blocks of the source become `match` on that value.  Machine-level
caveats of the embedding are noted at each definition.
-/

namespace StudentApp

/-! ### Python decimal-string primitives

`get_next_sample_id` in the source computes `str(max(int(s["_id"]) ...) + 1)`.
We model Python `str` of a nonnegative integer by Lean `Nat.repr` (both produce
the canonical decimal numeral) and Python `int(...)` on a string by
`pyIntOfString` below (strip ASCII whitespace, optional sign, decimal digits;
Python's underscore digit grouping and non-ASCII whitespace are not modelled —
no claim depends on them). -/

/-- Numeric value of a decimal digit character. -/
def digitVal (c : Char) : Nat := c.toNat - '0'.toNat

/-- Characters stripped by Python `str.strip()` (ASCII whitespace). -/
def isPySpace (c : Char) : Bool :=
  c = ' ' || c = '\t' || c = '\n' || c = '\x0d' || c = '\x0b' || c = '\x0c'

/-- Python `str.strip()` on a character list. -/
def pyStrip (l : List Char) : List Char :=
  ((l.dropWhile isPySpace).reverse.dropWhile isPySpace).reverse

/-- Digit-run parse: `some` of the decimal value when the list is a nonempty
run of decimal digits, `none` otherwise. -/
def pyStrToNat (l : List Char) : Option Nat :=
  if l.isEmpty then none
  else if l.all Char.isDigit then
    some (l.foldl (fun n c => n * 10 + digitVal c) 0)
  else none

/-- Python `int()` applied to a string: strip whitespace, optional single
sign, then a nonempty digit run. Raising `ValueError` is modelled as `none`. -/
def pyIntOfString (s : String) : Option Int :=
  match pyStrip s.toList with
  | [] => none
  | c :: rest =>
    if c = '-' then (pyStrToNat rest).map (fun n => -(n : Int))
    else if c = '+' then (pyStrToNat rest).map (fun n => (n : Int))
    else (pyStrToNat (c :: rest)).map (fun n => (n : Int))

/-- Python `str.strip()` on a `String`. -/
def pyStripString (s : String) : String := ⟨pyStrip s.toList⟩

/-- The ten decimal digit characters. -/
def decChars : List Char := ['0','1','2','3','4','5','6','7','8','9']

/-- Python `str.lower()` (per-character; ASCII-faithful, which covers the
record data). -/
def pyLower (s : String) : String := ⟨s.toList.map Char.toLower⟩

/-- Contiguous-substring check on character lists: `needle` occurs at the
start, or somewhere in the tail. -/
def isSubstrList (needle : List Char) : List Char → Bool
  | [] => needle.isEmpty
  | c :: rest => needle.isPrefixOf (c :: rest) || isSubstrList needle rest

/-- Python `needle in haystack` on strings: substring containment. -/
def strContains (haystack needle : String) : Bool :=
  isSubstrList needle.toList haystack.toList

/-! ### Data model (`app.py`)

A student record is a dictionary with keys `_id`, `name`, `age` and
(for records written by `add_student`) `created_at`; `created_at := none`
models absence of the key. -/

structure Student where
  sid : String
  name : String
  age : Int
  created_at : Option String := none
deriving DecidableEq

/-- The seed fallback data `SAMPLE_STUDENTS` (no `created_at` key). -/
def SAMPLE_STUDENTS : List Student :=
  [⟨"1", "John Doe", 20, none⟩,
   ⟨"2", "Jane Smith", 22, none⟩,
   ⟨"3", "Alice Johnson", 19, none⟩,
   ⟨"4", "Bob Wilson", 21, none⟩]

/-- `get_next_sample_id` from `app.py`: `"1"` for an empty list, otherwise
`str(max(int(s["_id"]) for s in SAMPLE_STUDENTS) + 1)`.  Python `int` raises
on a non-numeric id; stored ids are always canonical decimal numerals (seed
ids "1"–"4" and `str`-generated ids), so the embedding totalises the parse
with `getD 0` (equal to the source on every reachable store). -/
def get_next_sample_id (students : List Student) : String :=
  if students.isEmpty then "1"
  else
    toString
      ((students.map (fun s => ((pyIntOfString s.sid).getD 0).toNat)).foldl max 0 + 1)

/-- JSON values a request-body field can hold.  JSON fractional numbers,
nested arrays and nested objects are not modelled: no claim concerns them. -/
inductive JVal where
  | jstr (s : String)
  | jint (n : Int)
  | jbool (b : Bool)
  | jnull
deriving DecidableEq

/-- Python `int(x)` on a body value: identity on integers, string parse,
0/1 on booleans; `None` raises `TypeError` (`none`). -/
def pyInt : JVal → Option Int
  | .jstr s => pyIntOfString s
  | .jint n => some n
  | .jbool b => some (if b then 1 else 0)
  | .jnull => none

/-! ### Record Store operations

`DB_CONNECTED` is the `connected` flag.  Each connected-mode driver call is an
`Except String α` argument: `Except.error` is an exception raised by the
driver (or by `ObjectId` parsing), which the source's `try/except` handles. -/

/-- Result dictionary of `delete_student`: `{"message": ...}` or
`{"error": ...}`. -/
inductive DelResult where
  | message (m : String)
  | error (e : String)
deriving DecidableEq

/-- `add_student`, fallback branch: build the record, assign the next sample
id, convert `created_at` to its ISO string, append a copy to
`SAMPLE_STUDENTS`, and return the record.  The wall-clock timestamp is the
`now` argument. -/
def add_student_fallback (sample : List Student) (name : String) (age : Int)
    (now : String) : Student × List Student :=
  let student : Student :=
    { sid := get_next_sample_id sample, name := name, age := age,
      created_at := some now }
  (student, sample ++ [student])

/-- `add_student`, connected branch: `insert_one` either raises (re-raised by
the source's `except ... raise`) or yields the generated object id string. -/
def add_student_connected (insertResult : Except String String) (name : String)
    (age : Int) (now : String) : Except String Student :=
  match insertResult with
  | .error e => .error e
  | .ok newId =>
    .ok { sid := newId, name := name, age := age, created_at := some now }

/-- The `{"_id": str(...), "name": ..., "age": ...}` projection applied to
connected-mode query results. -/
def projStudent (s : Student) : Student :=
  { sid := s.sid, name := s.name, age := s.age, created_at := none }

/-- `get_students`: connected mode lists the collection (projected); any
backend exception, and fallback mode, yield a copy of `SAMPLE_STUDENTS`. -/
def get_students (connected : Bool) (dbFind : Except String (List Student))
    (sample : List Student) : List Student :=
  if connected then
    match dbFind with
    | .ok students => students.map projStudent
    | .error _ => sample
  else sample

/-- The fallback scan of `get_student_by_id`: first record whose `_id` equals
the request id literally. -/
def findById (sample : List Student) (student_id : String) : Option Student :=
  sample.find? (fun s => s.sid = student_id)

/-- `get_student_by_id`: connected-mode `ObjectId` lookup (a malformed id or a
driver failure is the `Except.error` case), falling back to the literal scan
on exception; fallback mode scans directly. -/
def get_student_by_id (connected : Bool)
    (dbFind : Except String (Option Student)) (sample : List Student)
    (student_id : String) : Option Student :=
  if connected then
    match dbFind with
    | .ok st => st
    | .error _ => findById sample student_id
  else findById sample student_id

/-- `delete_student`: connected mode inspects `deleted_count`, and an
exception becomes the `"Failed to delete student"` error dictionary (the
exception is swallowed, not re-raised); fallback mode removes the first record
with a matching id.  Returns the result dictionary and the updated sample
list. -/
def delete_student (connected : Bool) (dbDelete : Except String Nat)
    (sample : List Student) (student_id : String) : DelResult × List Student :=
  if connected then
    match dbDelete with
    | .ok deleted_count =>
      if deleted_count > 0 then (.message "Student deleted successfully", sample)
      else (.error "Student not found", sample)
    | .error _ => (.error "Failed to delete student", sample)
  else
    match sample.find? (fun s => s.sid = student_id) with
    | some st => (.message "Student deleted successfully", sample.erase st)
    | none => (.error "Student not found", sample)

/-- The fallback scan of `search_students_by_name`:
`[s for s in SAMPLE_STUDENTS if name.lower() in s["name"].lower()]`. -/
def searchScan (sample : List Student) (name : String) : List Student :=
  sample.filter (fun s => strContains (pyLower s.name) (pyLower name))

/-- `search_students_by_name`: connected-mode case-insensitive regex query
(projected), with exception fallback to the scan; fallback mode scans. -/
def search_students_by_name (connected : Bool)
    (dbFind : Except String (List Student)) (sample : List Student)
    (name : String) : List Student :=
  if connected then
    match dbFind with
    | .ok students => students.map projStudent
    | .error _ => searchScan sample name
  else searchScan sample name

/-! ### Request handlers

A response is a status code paired with a body shape.  Handlers that can
mutate the fallback list also return the updated list. -/

inductive RespBody where
  | err (msg : String)
  | student (s : Student)
  | students (l : List Student)
  | msg (m : String)
deriving DecidableEq

abbrev Resp := Nat × RespBody

/-- The name-validation step of the `POST /students` handler followed by the
store write (the source's `if not data["name"].strip(): ... / add_student`).
A non-string `name` reaching `data["name"].strip()` raises `AttributeError`,
caught by the route's outer `except` as a 500; a connected-mode insert
failure is re-raised by `add_student` and caught the same way. -/
def addName (connected : Bool) (insertResult : Except String String)
    (sample : List Student) (now : String) (age : Int) (nameV : JVal) :
    Resp × List Student :=
  match nameV with
  | .jstr nm =>
    if pyStripString nm = "" then
      ((400, .err "Name cannot be empty"), sample)
    else
      if connected then
        match add_student_connected insertResult nm age now with
        | .error _ => ((500, .err "Failed to add student"), sample)
        | .ok st => ((201, .student st), sample)
      else
        let r := add_student_fallback sample nm age now
        ((201, .student r.1), r.2)
  | _ => ((500, .err "Failed to add student"), sample)

/-- The body of the `POST /students` handler after the two field-presence
checks: age coercion and range check, then the name check and store write. -/
def addChecked (connected : Bool) (insertResult : Except String String)
    (sample : List Student) (now : String) (nameV ageV : JVal) :
    Resp × List Student :=
  match pyInt ageV with
  | none => ((400, .err "Age must be a valid number"), sample)
  | some age =>
    if age < 0 ∨ age > 150 then
      ((400, .err "Age must be between 0 and 150"), sample)
    else addName connected insertResult sample now age nameV

/-- `POST /students` handler (`add` in `app.py`).  The parsed JSON body is an
association list (`data.isEmpty` models Python falsiness of `{}` and `None`);
key lookup models Python `in`/`[]` on the parsed object. -/
def add (connected : Bool) (insertResult : Except String String)
    (sample : List Student) (now : String) (data : List (String × JVal)) :
    Resp × List Student :=
  if data.isEmpty then ((400, .err "No JSON data provided"), sample)
  else
    match data.lookup "name", data.lookup "age" with
    | none, _ =>
      ((400, .err "Missing required fields: \x27name\x27 and \x27age\x27"), sample)
    | some _, none =>
      ((400, .err "Missing required fields: \x27name\x27 and \x27age\x27"), sample)
    | some nameV, some ageV =>
      addChecked connected insertResult sample now nameV ageV

/-- `GET /students` handler (`get_all`): `get_students` handles every backend
exception internally, so the route always answers 200 with the list. -/
def get_all (connected : Bool) (dbFind : Except String (List Student))
    (sample : List Student) : Resp :=
  (200, .students (get_students connected dbFind sample))

/-- `GET /students/{id}` handler.  `if student:` is dict truthiness; a found
record dictionary is always nonempty, hence truthy. -/
def get_by_id (connected : Bool) (dbFind : Except String (Option Student))
    (sample : List Student) (student_id : String) : Resp :=
  match get_student_by_id connected dbFind sample student_id with
  | some st => (200, .student st)
  | none => (404, .err "Student not found")

/-- `DELETE /students/{id}` handler: any result dictionary containing `error`
is answered with 404. -/
def delete (connected : Bool) (dbDelete : Except String Nat)
    (sample : List Student) (student_id : String) : Resp × List Student :=
  let r := delete_student connected dbDelete sample student_id
  match r.1 with
  | .error e => ((404, .err e), r.2)
  | .message m => ((200, .msg m), r.2)

/-- `GET /students/name/{name}` handler: empty-list falsiness answers 404. -/
def get_by_name (connected : Bool) (dbFind : Except String (List Student))
    (sample : List Student) (name : String) : Resp :=
  let students_list := search_students_by_name connected dbFind sample name
  if students_list.isEmpty then
    (404, .err "No students found with the given name")
  else (200, .students students_list)

/-! ### Specification-side predicates -/

/-- A canonical decimal id: the string is `str(n)` for some natural `n`.
Every id stored in fallback mode satisfies this (seed ids "1"–"4" and the
`str`-generated ids of `get_next_sample_id`). -/
def CanonicalId (s : String) : Prop := ∃ n : Nat, s = toString n

/-- Case-insensitive containment: the lowered query occurs contiguously
inside the lowered record name. -/
def MatchesQuery (recordName query : String) : Prop :=
  ∃ pre post,
    (pyLower recordName).toList = pre ++ (pyLower query).toList ++ post

/-! ### Roundtrip: parsing the canonical decimal numeral of `n` yields `n` -/

theorem digitChar_mem_decChars {k : Nat} (h : k < 10) :
    Nat.digitChar k ∈ decChars := by
  interval_cases k <;> decide

theorem digitVal_digitChar {k : Nat} (h : k < 10) :
    digitVal (Nat.digitChar k) = k := by
  interval_cases k <;> decide

theorem toDigitsCore_append (b : Nat) :
    ∀ (fuel n : Nat) (ds : List Char),
      Nat.toDigitsCore b fuel n ds = Nat.toDigitsCore b fuel n [] ++ ds := by
  intro fuel
  induction fuel with
  | zero => intro n ds; simp [Nat.toDigitsCore]
  | succ f ih =>
    intro n ds
    simp only [Nat.toDigitsCore]
    by_cases h : n / b = 0
    · simp [h]
    · simp only [if_neg h]
      rw [ih (n / b) (Nat.digitChar (n % b) :: ds),
          ih (n / b) [Nat.digitChar (n % b)], List.append_assoc]
      rfl

/-- Structure of the digit list produced with sufficient fuel: every character
is a decimal digit, the list is nonempty, and folding the digit values
recovers the number. -/
theorem toDigitsCore_spec :
    ∀ (n fuel : Nat), n < fuel →
      (∀ c ∈ Nat.toDigitsCore 10 fuel n [], c ∈ decChars) ∧
      Nat.toDigitsCore 10 fuel n [] ≠ [] ∧
      ∀ a : Nat,
        (Nat.toDigitsCore 10 fuel n []).foldl (fun m c => m * 10 + digitVal c) a
          = a * 10 ^ (Nat.toDigitsCore 10 fuel n []).length + n := by
  intro n
  induction n using Nat.strong_induction_on with
  | _ n ih =>
    intro fuel hfuel
    match fuel, hfuel with
    | f + 1, hfuel =>
      simp only [Nat.toDigitsCore]
      by_cases h : n / 10 = 0
      · have hn : n < 10 := (Nat.div_eq_zero_iff (by norm_num)).1 h
        refine ⟨?_, by simp [h], ?_⟩
        · intro c hc
          simp only [if_pos h, List.mem_singleton] at hc
          subst hc
          exact digitChar_mem_decChars (Nat.mod_lt _ (by norm_num))
        · intro a
          simp only [if_pos h, List.foldl_cons, List.foldl_nil,
            List.length_singleton, pow_one]
          rw [Nat.mod_eq_of_lt hn, digitVal_digitChar hn]
      · have hn10 : 10 ≤ n := by
          by_contra hlt
          exact h (Nat.div_eq_zero_iff (by norm_num) |>.2 (by omega))
        have hdiv_lt : n / 10 < n := Nat.div_lt_self (by omega) (by norm_num)
        have hdiv_f : n / 10 < f := by
          have : n ≤ f := Nat.lt_succ_iff.1 hfuel
          omega
        obtain ⟨hmem, hne, hval⟩ := ih (n / 10) hdiv_lt f hdiv_f
        simp only [if_neg h]
        rw [toDigitsCore_append 10 f (n / 10) [Nat.digitChar (n % 10)]]
        refine ⟨?_, by simp, ?_⟩
        · intro c hc
          rcases List.mem_append.1 hc with hc | hc
          · exact hmem c hc
          · simp only [List.mem_singleton] at hc
            subst hc
            exact digitChar_mem_decChars (Nat.mod_lt _ (by norm_num))
        · intro a
          rw [List.foldl_append, hval a, List.length_append]
          simp only [List.foldl_cons, List.foldl_nil, List.length_singleton]
          rw [digitVal_digitChar (Nat.mod_lt n (by norm_num))]
          rw [pow_succ]
          have := Nat.div_add_mod n 10
          ring_nf
          omega

theorem repr_chars (n : Nat) :
    (∀ c ∈ Nat.toDigits 10 n, c ∈ decChars) ∧ Nat.toDigits 10 n ≠ [] ∧
      (Nat.toDigits 10 n).foldl (fun m c => m * 10 + digitVal c) 0 = n := by
  obtain ⟨h1, h2, h3⟩ := toDigitsCore_spec n (n + 1) (Nat.lt_succ_self n)
  exact ⟨h1, h2, by simpa using h3 0⟩

theorem dropWhile_eq_self_of_forall {p : Char → Bool} {l : List Char}
    (h : ∀ c ∈ l, p c = false) : l.dropWhile p = l := by
  cases l with
  | nil => rfl
  | cons a l => simp [List.dropWhile_cons, h a (List.mem_cons_self a l)]

theorem pyStrip_eq_self {l : List Char} (h : ∀ c ∈ l, isPySpace c = false) :
    pyStrip l = l := by
  unfold pyStrip
  rw [dropWhile_eq_self_of_forall h,
      dropWhile_eq_self_of_forall (by intro c hc; exact h c (List.mem_reverse.1 hc)),
      List.reverse_reverse]

theorem decChar_not_space {c : Char} (h : c ∈ decChars) : isPySpace c = false := by
  fin_cases h <;> decide

theorem decChar_isDigit {c : Char} (h : c ∈ decChars) : c.isDigit = true := by
  fin_cases h <;> decide

theorem decChar_ne_dash {c : Char} (h : c ∈ decChars) : ¬(c = '-') := by
  fin_cases h <;> decide

theorem decChar_ne_plus {c : Char} (h : c ∈ decChars) : ¬(c = '+') := by
  fin_cases h <;> decide

theorem toList_repr (n : Nat) : (Nat.repr n).toList = Nat.toDigits 10 n := rfl

/-- Parsing the canonical decimal numeral of a natural number recovers it. -/
theorem pyIntOfString_repr (n : Nat) : pyIntOfString (Nat.repr n) = some (n : Int) := by
  obtain ⟨hmem, hne, hval⟩ := repr_chars n
  unfold pyIntOfString
  rw [toList_repr, pyStrip_eq_self (fun c hc => decChar_not_space (hmem c hc))]
  match hL : Nat.toDigits 10 n, hmem, hval with
  | [], _, _ => exact absurd hL hne
  | c :: rest, hmem, hval =>
    simp only [if_neg (decChar_ne_dash (hmem c (List.mem_cons_self c rest))),
      if_neg (decChar_ne_plus (hmem c (List.mem_cons_self c rest)))]
    unfold pyStrToNat
    rw [if_neg (by simp), if_pos (by
      rw [List.all_eq_true]
      intro c' hc'
      exact decChar_isDigit (hmem c' hc'))]
    simp [hval]

theorem pyIntOfString_toString (n : Nat) :
    pyIntOfString (toString n) = some (n : Int) := pyIntOfString_repr n

theorem toString_nat_ne_empty (n : Nat) : toString n ≠ "" := by
  intro h
  have h2 : (toString n).toList = ("" : String).toList := by rw [h]
  exact (repr_chars n).2.1 h2

/-! ### Maximum over a list via `foldl max` (Python `max(...)`) -/

theorem le_foldl_max (l : List Nat) (b : Nat) : b ≤ l.foldl max b := by
  induction l generalizing b with
  | nil => simp
  | cons a t ih =>
    rw [List.foldl_cons]
    exact le_trans (Nat.le_max_left b a) (ih (max b a))

theorem mem_le_foldl_max {x : Nat} :
    ∀ {l : List Nat}, x ∈ l → ∀ b : Nat, x ≤ l.foldl max b := by
  intro l
  induction l with
  | nil => intro h; cases h
  | cons a t ih =>
    intro h b
    rw [List.foldl_cons]
    rcases List.mem_cons.1 h with rfl | h2
    · exact le_trans (Nat.le_max_right b x) (le_foldl_max t _)
    · exact ih h2 _

theorem foldl_max_mem :
    ∀ (l : List Nat) (b : Nat), l.foldl max b = b ∨ l.foldl max b ∈ l := by
  intro l
  induction l with
  | nil => intro b; left; rfl
  | cons a t ih =>
    intro b
    rw [List.foldl_cons]
    rcases ih (max b a) with h | h
    · rw [h]
      by_cases hba : a ≤ b
      · left; rw [Nat.max_eq_left hba]
      · right
        rw [Nat.max_eq_right (le_of_not_le hba)]
        exact List.mem_cons_self a t
    · right; exact List.mem_cons_of_mem a h

/-! ### Canonical ids and freshness of `get_next_sample_id` -/

theorem canonical_parse {s : String} (h : CanonicalId s) :
    ∃ k : Nat, s = toString k ∧ ((pyIntOfString s).getD 0).toNat = k := by
  obtain ⟨n, rfl⟩ := h
  refine ⟨n, rfl, ?_⟩
  rw [pyIntOfString_toString]
  simp

/-- Value of a stored record used by `get_next_sample_id`'s maximum. -/
theorem canonical_map_value {s : Student} (h : CanonicalId s.sid) :
    ∃ k : Nat, s.sid = toString k ∧
      ((pyIntOfString s.sid).getD 0).toNat = k := canonical_parse h

theorem get_next_sample_id_nonempty {sample : List Student}
    (h : sample ≠ []) :
    get_next_sample_id sample =
      toString
        ((sample.map (fun s => ((pyIntOfString s.sid).getD 0).toNat)).foldl max 0
          + 1) := by
  unfold get_next_sample_id
  rw [if_neg (by simpa [List.isEmpty_iff] using h)]

/-- The generated id is not the id of any stored record (all stored ids being
canonical decimals). -/
theorem get_next_sample_id_fresh {sample : List Student}
    (hids : ∀ s ∈ sample, CanonicalId s.sid) :
    ∀ s ∈ sample, s.sid ≠ get_next_sample_id sample := by
  intro s hs heq
  have hne : sample ≠ [] := by rintro rfl; cases hs
  rw [get_next_sample_id_nonempty hne] at heq
  obtain ⟨k, hk, hval⟩ := canonical_parse (hids s hs)
  have hmem : ((pyIntOfString s.sid).getD 0).toNat ∈
      sample.map (fun s => ((pyIntOfString s.sid).getD 0).toNat) :=
    List.mem_map_of_mem _ hs
  rw [hval] at hmem
  have hkM : k ≤
      (sample.map (fun s => ((pyIntOfString s.sid).getD 0).toNat)).foldl max 0 :=
    mem_le_foldl_max hmem 0
  have hparse : ((pyIntOfString s.sid).getD 0).toNat =
      (sample.map (fun s => ((pyIntOfString s.sid).getD 0).toNat)).foldl max 0
        + 1 := by
    rw [heq, pyIntOfString_toString]
    simp
  omega

/-! ### Substring characterization -/

theorem isSubstrList_iff (needle : List Char) :
    ∀ haystack : List Char,
      isSubstrList needle haystack = true ↔
        ∃ pre post, haystack = pre ++ needle ++ post := by
  intro haystack
  induction haystack with
  | nil =>
    simp only [isSubstrList, List.isEmpty_iff]
    constructor
    · rintro rfl
      exact ⟨[], [], rfl⟩
    · rintro ⟨pre, post, h⟩
      rcases List.append_eq_nil.1 (List.append_eq_nil.1 h.symm).1 with ⟨-, h2⟩
      exact h2
  | cons c rest ih =>
    simp only [isSubstrList, Bool.or_eq_true, List.isPrefixOf_iff_prefix, ih]
    constructor
    · rintro (⟨t, ht⟩ | ⟨pre, post, rfl⟩)
      · exact ⟨[], t, by simpa using ht.symm⟩
      · exact ⟨c :: pre, post, by simp⟩
    · rintro ⟨pre, post, hsplit⟩
      cases pre with
      | nil =>
        left
        exact ⟨post, by simpa using hsplit.symm⟩
      | cons a pre =>
        right
        rw [List.cons_append, List.cons_append, List.cons.injEq] at hsplit
        exact ⟨pre, post, hsplit.2⟩

theorem strContains_iff (haystack needle : String) :
    strContains haystack needle = true ↔
      ∃ pre post, haystack.toList = pre ++ needle.toList ++ post := by
  unfold strContains
  exact isSubstrList_iff _ _

/-! ### Handler reduction lemmas -/

theorem add_lookup_reduces (con : Bool) (ins : Except String String)
    (sample : List Student) (now : String) (data : List (String × JVal))
    {nameV ageV : JVal}
    (hname : data.lookup "name" = some nameV)
    (hage : data.lookup "age" = some ageV) :
    add con ins sample now data = addChecked con ins sample now nameV ageV := by
  have hne : data.isEmpty = false := by
    cases data with
    | nil => simp at hname
    | cons hd tl => rfl
  unfold add
  rw [hne, hname, hage]
  rfl

theorem addChecked_valid (con : Bool) (ins : Except String String)
    (sample : List Student) (now nm : String) (a : Int)
    (h0 : 0 ≤ a) (h150 : a ≤ 150) (hnm : pyStripString nm ≠ "") :
    addChecked con ins sample now (.jstr nm) (.jint a) =
      if con then
        match add_student_connected ins nm a now with
        | .error _ => ((500, .err "Failed to add student"), sample)
        | .ok st => ((201, .student st), sample)
      else
        ((201, .student (add_student_fallback sample nm a now).1),
          (add_student_fallback sample nm a now).2) := by
  unfold addChecked
  simp only [pyInt]
  rw [if_neg (by omega)]
  simp only [addName]
  rw [if_neg hnm]

theorem addChecked_age (con : Bool) (ins : Except String String)
    (sample : List Student) (now : String) (nameV ageV : JVal) (a : Int)
    (ha : pyInt ageV = some a) :
    addChecked con ins sample now nameV ageV =
      if a < 0 ∨ a > 150 then
        ((400, .err "Age must be between 0 and 150"), sample)
      else addName con ins sample now a nameV := by
  unfold addChecked
  rw [ha]

theorem addChecked_age_none (con : Bool) (ins : Except String String)
    (sample : List Student) (now : String) (nameV ageV : JVal)
    (ha : pyInt ageV = none) :
    addChecked con ins sample now nameV ageV =
      ((400, .err "Age must be a valid number"), sample) := by
  unfold addChecked
  rw [ha]

theorem addName_empty (con : Bool) (ins : Except String String)
    (sample : List Student) (now : String) (a : Int) (nm : String)
    (h : pyStripString nm = "") :
    addName con ins sample now a (.jstr nm) =
      ((400, .err "Name cannot be empty"), sample) := by
  simp only [addName]
  rw [if_pos h]

theorem addName_nonstr (con : Bool) (ins : Except String String)
    (sample : List Student) (now : String) (a : Int) (nameV : JVal)
    (h : ∀ s : String, nameV ≠ .jstr s) :
    addName con ins sample now a nameV =
      ((500, .err "Failed to add student"), sample) := by
  cases nameV with
  | jstr s => exact absurd rfl (h s)
  | jint n => rfl
  | jbool b => rfl
  | jnull => rfl

/-! ### Claim C1: valid create in fallback mode -/

/-- C1: a valid create request (both fields present, integer age in [0,150],
name non-empty after stripping) is answered 201 in fallback mode with a
record echoing name and age unchanged and a non-empty id distinct from every
stored id; the id is `str(M + 1)` where `M` is the largest existing id. -/
theorem create_valid_201 (ins : Except String String) (sample : List Student)
    (now nm : String) (a : Int) (data : List (String × JVal))
    (hname : data.lookup "name" = some (.jstr nm))
    (hage : data.lookup "age" = some (.jint a))
    (h0 : 0 ≤ a) (h150 : a ≤ 150) (hnm : pyStripString nm ≠ "")
    (hids : ∀ s ∈ sample, CanonicalId s.sid) :
    (∃ st : Student,
      (add false ins sample now data).1 = (201, .student st) ∧
      st.name = nm ∧ st.age = a ∧ st.sid ≠ "" ∧
      (∀ s ∈ sample, s.sid ≠ st.sid) ∧
      (sample ≠ [] → ∃ M : Nat,
        (∀ s ∈ sample, ∃ k : Nat, s.sid = toString k ∧ k ≤ M) ∧
        (∃ s ∈ sample, s.sid = toString M) ∧
        st.sid = toString (M + 1))) ∧
    (∀ newId : String,
      (add true (.ok newId) sample now data).1 =
        (201, .student ⟨newId, nm, a, some now⟩)) := by
  refine ⟨⟨(add_student_fallback sample nm a now).1, ?_, rfl, rfl, ?_, ?_, ?_⟩,
    ?_⟩
  · rw [add_lookup_reduces false ins sample now data hname hage,
        addChecked_valid false ins sample now nm a h0 h150 hnm]
    rfl
  · show get_next_sample_id sample ≠ ""
    by_cases h : sample = []
    · subst h; decide
    · rw [get_next_sample_id_nonempty h]
      exact toString_nat_ne_empty _
  · exact get_next_sample_id_fresh hids
  · intro hne
    refine ⟨(sample.map
      (fun s => ((pyIntOfString s.sid).getD 0).toNat)).foldl max 0, ?_, ?_, ?_⟩
    · intro s hs
      obtain ⟨k, hk, hv⟩ := canonical_parse (hids s hs)
      refine ⟨k, hk, ?_⟩
      have hmem : ((pyIntOfString s.sid).getD 0).toNat ∈
          sample.map (fun s => ((pyIntOfString s.sid).getD 0).toNat) :=
        List.mem_map_of_mem _ hs
      rw [hv] at hmem
      exact mem_le_foldl_max hmem 0
    · rcases foldl_max_mem
        (sample.map (fun s => ((pyIntOfString s.sid).getD 0).toNat)) 0 with
        hz | hmem
      · obtain ⟨s0, hs0⟩ := List.exists_mem_of_ne_nil sample hne
        obtain ⟨k, hk, hv⟩ := canonical_parse (hids s0 hs0)
        have hmm : ((pyIntOfString s0.sid).getD 0).toNat ∈
            sample.map (fun s => ((pyIntOfString s.sid).getD 0).toNat) :=
          List.mem_map_of_mem _ hs0
        rw [hv] at hmm
        have hk0 : k ≤ 0 := by
          have := mem_le_foldl_max hmm 0
          omega
        refine ⟨s0, hs0, ?_⟩
        rw [hk, hz]
        congr 1
        omega
      · obtain ⟨s0, hs0, hval0⟩ := List.mem_map.1 hmem
        obtain ⟨k, hk, hv⟩ := canonical_parse (hids s0 hs0)
        refine ⟨s0, hs0, ?_⟩
        rw [hk]
        congr 1
        rw [← hval0, hv]
    · show get_next_sample_id sample = toString _
      exact get_next_sample_id_nonempty hne
  · intro newId
    rw [add_lookup_reduces true (.ok newId) sample now data hname hage,
        addChecked_valid true (.ok newId) sample now nm a h0 h150 hnm]
    rfl

/-- C1 witness: creating `{"name": "John Q", "age": 25}` on the seed data. -/
theorem create_valid_201_witness :
    (∃ st : Student,
      (add false (.ok "") SAMPLE_STUDENTS "2026-02-03T04:05:06"
          [("name", .jstr "John Q"), ("age", .jint 25)]).1 = (201, .student st) ∧
      st.name = "John Q" ∧ st.age = 25 ∧ st.sid ≠ "" ∧
      (∀ s ∈ SAMPLE_STUDENTS, s.sid ≠ st.sid) ∧
      (SAMPLE_STUDENTS ≠ [] → ∃ M : Nat,
        (∀ s ∈ SAMPLE_STUDENTS, ∃ k : Nat, s.sid = toString k ∧ k ≤ M) ∧
        (∃ s ∈ SAMPLE_STUDENTS, s.sid = toString M) ∧
        st.sid = toString (M + 1))) ∧
    (∀ newId : String,
      (add true (.ok newId) SAMPLE_STUDENTS "2026-02-03T04:05:06"
          [("name", .jstr "John Q"), ("age", .jint 25)]).1 =
        (201, .student ⟨newId, "John Q", 25, some "2026-02-03T04:05:06"⟩)) :=
  create_valid_201 (.ok "") SAMPLE_STUDENTS "2026-02-03T04:05:06" "John Q" 25
    [("name", .jstr "John Q"), ("age", .jint 25)] rfl rfl (by decide) (by decide)
    (by decide)
    (by
      intro s hs
      fin_cases hs
      exacts [⟨1, rfl⟩, ⟨2, rfl⟩, ⟨3, rfl⟩, ⟨4, rfl⟩])

/-! ### Claim C2: projection of list responses -/

/-- C2 counterexample: in fallback mode, after creating a student, the list
response still contains that student's `created_at` field — it is not
projected away, contradicting the claim that list responses carry exactly
{id, name, age}. -/
theorem list_projection_cex :
    ∃ s ∈ get_students false (.ok [])
        (add false (.ok "") SAMPLE_STUDENTS "2026-01-01T00:00:00"
          [("name", .jstr "Eve"), ("age", .jint 30)]).2,
      s.created_at = some "2026-01-01T00:00:00" := by
  refine ⟨⟨"5", "Eve", 30, some "2026-01-01T00:00:00"⟩, ?_, rfl⟩
  decide

/-- C2 amended: fallback ListAll returns the stored records verbatim — the
seed records carry exactly {id, name, age}, but a record created in fallback
mode keeps its `created_at` in list responses; the {id, name, age} projection
is applied only to connected-mode results. -/
theorem list_fallback_verbatim (db : Except String (List Student))
    (sample : List Student) (nm now : String) (a : Int) (l : List Student) :
    get_students false db sample = sample ∧
    (∀ s ∈ SAMPLE_STUDENTS, s.created_at = none) ∧
    (add_student_fallback sample nm a now).1.created_at = some now ∧
    (add_student_fallback sample nm a now).2 =
      sample ++ [(add_student_fallback sample nm a now).1] ∧
    get_students true (.ok l) sample = l.map projStudent ∧
    ∀ s : Student, (projStudent s).created_at = none :=
  ⟨rfl, by decide, rfl, rfl, rfl, fun _ => rfl⟩

/-- C2 witness: the amended statement applied to the seed store. -/
theorem list_fallback_verbatim_witness :
    get_students false (.ok []) SAMPLE_STUDENTS = SAMPLE_STUDENTS ∧
    (⟨"1", "John Doe", 20, none⟩ : Student).created_at = none :=
  ⟨(list_fallback_verbatim (.ok []) SAMPLE_STUDENTS "Eve" "t" 30 []).1,
   (list_fallback_verbatim (.ok []) SAMPLE_STUDENTS "Eve" "t" 30 []).2.1
     ⟨"1", "John Doe", 20, none⟩ (by decide)⟩

/-! ### Claim C3: GetById on ids never issued by Create -/

/-- C3 counterexample: in a fresh fallback process no Create has run, so the
id "1" was never returned by Create, yet `GET /students/1` answers 200 with
the seed record, not 404. -/
theorem get_by_id_unissued_cex :
    get_by_id false (.ok none) SAMPLE_STUDENTS "1" =
      (200, .student ⟨"1", "John Doe", 20, none⟩) := by
  decide

/-- C3 amended: GetById answers 404 with an error body exactly when no stored
record's id equals the requested id; in fallback mode the pre-seeded sample
records are retrievable although Create never issued their ids. -/
theorem get_by_id_404_iff (db : Except String (Option Student))
    (sample : List Student) (i : String) :
    (get_by_id false db sample i = (404, .err "Student not found") ↔
      ∀ s ∈ sample, s.sid ≠ i) ∧
    ((∃ s ∈ sample, s.sid = i) → (get_by_id false db sample i).1 = 200) := by
  have hfb : get_by_id false db sample i =
      match findById sample i with
      | some st => (200, .student st)
      | none => (404, .err "Student not found") := rfl
  constructor
  · rw [hfb]
    cases hf : findById sample i with
    | none =>
      simp only [iff_true_intro rfl, true_iff]
      intro s hs hsid
      have := List.find?_eq_none.1 hf s hs
      simp [hsid] at this
    | some st =>
      constructor
      · intro h
        cases h
      · intro hall
        have hmem := List.mem_of_find?_eq_some hf
        have hp := List.find?_some hf
        simp only [decide_eq_true_eq] at hp
        exact absurd hp (hall st hmem)
  · rintro ⟨s, hs, hsid⟩
    rw [hfb]
    have hiss : (findById sample i).isSome := by
      unfold findById
      rw [List.find?_isSome]
      exact ⟨s, hs, by simp [hsid]⟩
    obtain ⟨st, hst⟩ := Option.isSome_iff_exists.1 hiss
    rw [hst]

/-- C3 witness: the amended statement applied to an id absent from the seed
store and to one present in it. -/
theorem get_by_id_404_iff_witness :
    get_by_id false (.ok none) SAMPLE_STUDENTS "999999" =
      (404, .err "Student not found") ∧
    (get_by_id false (.ok none) SAMPLE_STUDENTS "2").1 = 200 :=
  ⟨(get_by_id_404_iff (.ok none) SAMPLE_STUDENTS "999999").1.2 (by decide),
   (get_by_id_404_iff (.ok none) SAMPLE_STUDENTS "2").2
     ⟨⟨"2", "Jane Smith", 22, none⟩, by decide, rfl⟩⟩

/-! ### Claim C4: backend exceptions during writes -/

/-- C4 counterexample: a backend exception during DeleteById is answered 404
with the generic delete failure message, not 500 as the claim states. -/
theorem delete_backend_error_cex :
    delete true (.error "connection reset") SAMPLE_STUDENTS
        "652f8aab9d1e4a001f2b3c4d" =
      ((404, .err "Failed to delete student"), SAMPLE_STUDENTS) := rfl

/-- C4 amended: a backend exception during Create is answered 500 with the
generic message and nothing is stored; a backend exception during DeleteById
is converted by `delete_student` into an error dictionary, which the route
maps to 404 (with the generic delete message as body), not 500. -/
theorem write_backend_error (e1 e2 : String) (sample : List Student)
    (now nm i : String) (a : Int) (data : List (String × JVal))
    (hname : data.lookup "name" = some (.jstr nm))
    (hage : data.lookup "age" = some (.jint a))
    (h0 : 0 ≤ a) (h150 : a ≤ 150) (hnm : pyStripString nm ≠ "") :
    add true (.error e1) sample now data =
      ((500, .err "Failed to add student"), sample) ∧
    delete true (.error e2) sample i =
      ((404, .err "Failed to delete student"), sample) := by
  constructor
  · rw [add_lookup_reduces true (.error e1) sample now data hname hage,
        addChecked_valid true (.error e1) sample now nm a h0 h150 hnm]
    rfl
  · rfl

/-- C4 witness: the amended statement at a concrete valid body and id. -/
theorem write_backend_error_witness :
    add true (.error "boom") SAMPLE_STUDENTS "t"
        [("name", .jstr "Zed"), ("age", .jint 30)] =
      ((500, .err "Failed to add student"), SAMPLE_STUDENTS) ∧
    delete true (.error "boom") SAMPLE_STUDENTS "1" =
      ((404, .err "Failed to delete student"), SAMPLE_STUDENTS) :=
  write_backend_error "boom" "boom" SAMPLE_STUDENTS "t" "Zed" "1" 30
    [("name", .jstr "Zed"), ("age", .jint 30)] rfl rfl (by decide) (by decide)
    (by decide)

/-! ### Claim C5: case-insensitive substring search -/

/-- C5: in fallback mode, SearchByName returns exactly the stored students
whose name contains the query as a substring ignoring case; in particular the
record named "Alice Johnson" is returned for the queries "alice", "Johnson"
and "ce Jo". -/
theorem search_case_insensitive_substring
    (db : Except String (List Student)) (sample : List Student) (q : String) :
    (∀ s : Student,
      s ∈ search_students_by_name false db sample q ↔
        s ∈ sample ∧ MatchesQuery s.name q) ∧
    (∀ q2 ∈ (["alice", "Johnson", "ce Jo"] : List String),
      (⟨"3", "Alice Johnson", 19, none⟩ : Student) ∈
        search_students_by_name false db SAMPLE_STUDENTS q2) := by
  constructor
  · intro s
    show s ∈ searchScan sample q ↔ _
    unfold searchScan MatchesQuery
    rw [List.mem_filter, strContains_iff]
  · intro q2 hq2
    have hred : search_students_by_name false db SAMPLE_STUDENTS q2 =
        searchScan SAMPLE_STUDENTS q2 := rfl
    rw [hred]
    fin_cases hq2 <;> decide

/-- C5 witness: the search characterization applied to the query "alice". -/
theorem search_case_insensitive_substring_witness :
    (⟨"3", "Alice Johnson", 19, none⟩ : Student) ∈
      search_students_by_name false (.ok []) SAMPLE_STUDENTS "alice" :=
  (search_case_insensitive_substring (.ok []) SAMPLE_STUDENTS "alice").2
    "alice" (by decide)

/-! ### Claim C6: delete twice -/

theorem delete_fallback_not_found {sample : List Student} {i : String}
    (h : sample.countP (fun s => s.sid = i) = 0) (db : Except String Nat) :
    delete false db sample i = ((404, .err "Student not found"), sample) := by
  have hf : sample.find? (fun s => s.sid = i) = none := by
    rw [List.find?_eq_none]
    intro x hx
    exact List.countP_eq_zero.1 h x hx
  simp [delete, delete_student, hf]

/-- C6: deleting an id stored exactly once answers 200 with the success
message and removes the record; an immediate second delete of the same id
answers 404 and leaves the store unchanged; and deleting an id with no
matching record always answers 404 and changes nothing. -/
theorem delete_twice_200_then_404 (db1 db2 db3 : Except String Nat)
    (sample : List Student) (i : String) :
    (sample.countP (fun s => s.sid = i) = 1 →
      (delete false db1 sample i).1 =
        (200, .msg "Student deleted successfully") ∧
      (delete false db1 sample i).2.countP (fun s => s.sid = i) = 0 ∧
      delete false db2 (delete false db1 sample i).2 i =
        ((404, .err "Student not found"), (delete false db1 sample i).2)) ∧
    (sample.countP (fun s => s.sid = i) = 0 →
      delete false db3 sample i = ((404, .err "Student not found"), sample)) := by
  constructor
  · intro h1
    have hsome : (sample.find? (fun s => s.sid = i)).isSome := by
      rw [List.find?_isSome]
      obtain ⟨x, hx, hpx⟩ := List.countP_pos_iff.1 (by omega :
        0 < sample.countP (fun s => s.sid = i))
      exact ⟨x, hx, hpx⟩
    obtain ⟨st, hst⟩ := Option.isSome_iff_exists.1 hsome
    have hmem := List.mem_of_find?_eq_some hst
    have hp : st.sid = i := by
      have := List.find?_some hst
      simpa using this
    have hdel : delete false db1 sample i =
        ((200, .msg "Student deleted successfully"), sample.erase st) := by
      simp [delete, delete_student, hst]
    have hcount : (sample.erase st).countP (fun s => s.sid = i) = 0 := by
      have hperm := List.perm_cons_erase hmem
      have heq := hperm.countP_eq (fun s => decide (s.sid = i))
      rw [List.countP_cons, if_pos (by simp [hp])] at heq
      omega
    refine ⟨by rw [hdel], by rw [hdel]; exact hcount, ?_⟩
    rw [hdel]
    exact delete_fallback_not_found hcount db2
  · intro h0
    exact delete_fallback_not_found h0 db3

/-- C6 witness: deleting the seed id "2" twice. -/
theorem delete_twice_200_then_404_witness :
    (delete false (.ok 0) SAMPLE_STUDENTS "2").1 =
      (200, .msg "Student deleted successfully") ∧
    (delete false (.ok 0) (delete false (.ok 0) SAMPLE_STUDENTS "2").2 "2").1 =
      (404, .err "Student not found") := by
  have h := (delete_twice_200_then_404 (.ok 0) (.ok 0) (.ok 0)
    SAMPLE_STUDENTS "2").1 (by decide)
  exact ⟨h.1, by rw [h.2.2]⟩

/-! ### Claim C7: backend exceptions during reads are swallowed -/

/-- C7: a backend exception during any read is swallowed: ListAll falls back
to the full sample copy, GetById to the literal id scan, SearchByName to the
case-folded substring scan, and the read routes answer 200 or 404, never a
backend failure status. -/
theorem read_backend_error_swallowed (e : String) (sample : List Student)
    (i q : String) :
    get_students true (.error e) sample = sample ∧
    get_student_by_id true (.error e) sample i = findById sample i ∧
    search_students_by_name true (.error e) sample q = searchScan sample q ∧
    (get_all true (.error e) sample).1 = 200 ∧
    ((get_by_id true (.error e) sample i).1 = 200 ∨
      (get_by_id true (.error e) sample i).1 = 404) ∧
    ((get_by_name true (.error e) sample q).1 = 200 ∨
      (get_by_name true (.error e) sample q).1 = 404) := by
  refine ⟨rfl, rfl, rfl, rfl, ?_, ?_⟩
  · cases hf : get_student_by_id true (.error e) sample i with
    | none => right; simp [get_by_id, hf]
    | some st => left; simp [get_by_id, hf]
  · by_cases h : (search_students_by_name true (.error e) sample q).isEmpty
    · right; simp [get_by_name, h]
    · left; simp [get_by_name, h]

/-! ### Claim C8: search route status codes -/

/-- C8: the search route answers 404 with an error body exactly when the
result set is empty, and 200 with the non-empty result array otherwise —
never 200 with an empty array. -/
theorem search_route_404_on_empty (con : Bool)
    (db : Except String (List Student)) (sample : List Student) (q : String) :
    (search_students_by_name con db sample q = [] →
      get_by_name con db sample q =
        (404, .err "No students found with the given name")) ∧
    (search_students_by_name con db sample q ≠ [] →
      get_by_name con db sample q =
        (200, .students (search_students_by_name con db sample q))) := by
  constructor
  · intro h
    simp [get_by_name, h]
  · intro h
    simp [get_by_name, List.isEmpty_iff, h]

/-- C8 witness: an unmatched query answers 404, a matched one answers 200
with the matching records. -/
theorem search_route_404_on_empty_witness :
    get_by_name false (.ok []) SAMPLE_STUDENTS "zzz" =
      (404, .err "No students found with the given name") ∧
    get_by_name false (.ok []) SAMPLE_STUDENTS "alice" =
      (200, .students [⟨"3", "Alice Johnson", 19, none⟩]) := by
  refine ⟨(search_route_404_on_empty false (.ok []) SAMPLE_STUDENTS "zzz").1
    (by decide), ?_⟩
  have h := (search_route_404_on_empty false (.ok []) SAMPLE_STUDENTS
    "alice").2 (by decide)
  rw [h]
  decide

/-! ### Claim C9: invalid create input answers 400 -/

/-- C9: with both fields present, an age that is not coercible to an integer
or lies outside [0,150], or a string name that strips to empty, is answered
400 with an error body and nothing is stored. -/
theorem create_invalid_400 (con : Bool) (ins : Except String String)
    (sample : List Student) (now : String) (data : List (String × JVal))
    (nameV ageV : JVal)
    (hname : data.lookup "name" = some nameV)
    (hage : data.lookup "age" = some ageV)
    (hbad : pyInt ageV = none ∨
      (∃ a : Int, pyInt ageV = some a ∧ (a < 0 ∨ a > 150)) ∨
      (∃ nm : String, nameV = .jstr nm ∧ pyStripString nm = "")) :
    (add con ins sample now data).1.1 = 400 ∧
    (∃ m : String, (add con ins sample now data).1.2 = .err m) ∧
    (add con ins sample now data).2 = sample := by
  rw [add_lookup_reduces con ins sample now data hname hage]
  rcases hbad with hnone | ⟨a, ha, hrange⟩ | ⟨nm, rfl, hempty⟩
  · rw [addChecked_age_none con ins sample now nameV ageV hnone]
    exact ⟨rfl, ⟨_, rfl⟩, rfl⟩
  · rw [addChecked_age con ins sample now nameV ageV a ha, if_pos hrange]
    exact ⟨rfl, ⟨_, rfl⟩, rfl⟩
  · cases hpa : pyInt ageV with
    | none =>
      rw [addChecked_age_none con ins sample now _ ageV hpa]
      exact ⟨rfl, ⟨_, rfl⟩, rfl⟩
    | some a =>
      by_cases hr : a < 0 ∨ a > 150
      · rw [addChecked_age con ins sample now _ ageV a hpa, if_pos hr]
        exact ⟨rfl, ⟨_, rfl⟩, rfl⟩
      · rw [addChecked_age con ins sample now _ ageV a hpa, if_neg hr,
            addName_empty con ins sample now a nm hempty]
        exact ⟨rfl, ⟨_, rfl⟩, rfl⟩

/-- C9 witness: a string age that does not parse, on the seed store. -/
theorem create_invalid_400_witness :
    (add false (.ok "") SAMPLE_STUDENTS "t"
        [("name", .jstr "X"), ("age", .jstr "abc")]).1.1 = 400 ∧
    (∃ m : String, (add false (.ok "") SAMPLE_STUDENTS "t"
        [("name", .jstr "X"), ("age", .jstr "abc")]).1.2 = .err m) ∧
    (add false (.ok "") SAMPLE_STUDENTS "t"
        [("name", .jstr "X"), ("age", .jstr "abc")]).2 = SAMPLE_STUDENTS :=
  create_invalid_400 false (.ok "") SAMPLE_STUDENTS "t"
    [("name", .jstr "X"), ("age", .jstr "abc")] (.jstr "X") (.jstr "abc")
    rfl rfl (Or.inl (by decide))

/-! ### Claim C10: non-string name with valid age answers 500 -/

/-- C10: with both fields present and a coercible in-range age, a non-string
name is answered 500 with the generic "Failed to add student" message — not a
400 validation error — and nothing is stored. -/
theorem create_nonstring_name_500 (con : Bool) (ins : Except String String)
    (sample : List Student) (now : String) (data : List (String × JVal))
    (nameV ageV : JVal) (a : Int)
    (hname : data.lookup "name" = some nameV)
    (hnostr : ∀ s : String, nameV ≠ .jstr s)
    (hage : data.lookup "age" = some ageV)
    (ha : pyInt ageV = some a) (h0 : 0 ≤ a) (h150 : a ≤ 150) :
    add con ins sample now data =
      ((500, .err "Failed to add student"), sample) := by
  rw [add_lookup_reduces con ins sample now data hname hage,
      addChecked_age con ins sample now nameV ageV a ha, if_neg (by omega),
      addName_nonstr con ins sample now a nameV hnostr]

/-- C10 witness: a JSON-number name with a valid age. -/
theorem create_nonstring_name_500_witness :
    add false (.ok "") SAMPLE_STUDENTS "t"
        [("name", .jint 7), ("age", .jint 25)] =
      ((500, .err "Failed to add student"), SAMPLE_STUDENTS) :=
  create_nonstring_name_500 false (.ok "") SAMPLE_STUDENTS "t"
    [("name", .jint 7), ("age", .jint 25)] (.jint 7) (.jint 25) 25
    rfl (by intro s h; cases h) rfl rfl (by decide) (by decide)

end StudentApp
